import Mathlib

/-!
Verification of the seminstruct service (src/main.rs), a reverse proxy that
forwards OpenAI-style chat-completion requests to a "shimmy" backend.

The Rust source is shallowly embedded: the network is modelled by an oracle
giving, for each upstream attempt, the outcome of
`self.client.post(url).json(req).send().await` together with the subsequent
body read; the retry loop of `ShimmyClient::chat_completions`, the single-shot
`ShimmyClient::models` and `ShimmyClient::health`, and the axum handlers
`chat_completions_handler` and `health_check` are translated as pure functions
over these oracles.  Durations are in milliseconds as plain naturals
(`Duration::from_millis(100 * (1 << attempt))` becomes `100 * 2 ^ attempt`).

The token-generation engine described by the specification (tokenizer, decode
loop, sampling) is not part of this repository's source tree; where a claim is
about it, the engine is modelled from the spec and marked as such.
-/

namespace Seminstruct

/-- Mirror of `ChatMessage { role, content }`. -/
structure ChatMessage where
  role : String
  content : String
deriving DecidableEq

/-- Mirror of `Usage { prompt_tokens, completion_tokens, total_tokens }`. -/
structure Usage where
  prompt_tokens : Nat
  completion_tokens : Nat
  total_tokens : Nat
deriving DecidableEq

/-- Mirror of `ChatChoice { index, message, finish_reason }`. -/
structure ChatChoice where
  index : Nat
  message : ChatMessage
  finish_reason : String
deriving DecidableEq

/-- Mirror of `ChatCompletionRequest`: `model`, `messages`, and the optional
`max_tokens`, `temperature`, `top_p`, `stream` fields. -/
structure ChatCompletionRequest where
  model : String
  messages : List ChatMessage
  max_tokens : Option Nat
  temperature : Option Float
  top_p : Option Float
  stream : Option Bool

/-- Mirror of `ChatCompletionResponse`. -/
structure ChatCompletionResponse where
  id : String
  object : String
  created : Nat
  model : String
  choices : List ChatChoice
  usage : Usage
deriving DecidableEq

/-- Mirror of `ModelInfo`. -/
structure ModelInfo where
  id : String
  object : String
  created : Nat
  owned_by : String
deriving DecidableEq

/-- Mirror of `ModelsResponse`. -/
structure ModelsResponse where
  object : String
  data : List ModelInfo
deriving DecidableEq

/-- Mirror of `ErrorDetail { message, error_type, code }`. -/
structure ErrorDetail where
  message : String
  error_type : String
  code : Option String
deriving DecidableEq

/-- Mirror of `ErrorResponse { error }`. -/
structure ErrorResponse where
  error : ErrorDetail
deriving DecidableEq

/-- Mirror of `HealthResponse { status, shimmy_url, shimmy_healthy }`. -/
structure HealthResponse where
  status : String
  shimmy_url : String
  shimmy_healthy : Bool
deriving DecidableEq

/-- The aspects of a `reqwest::Error` the source inspects: whether
`is_timeout()` holds, and its display text (used in `format!`). -/
structure ReqError where
  is_timeout : Bool
  msg : String
deriving DecidableEq

/-- Mirror of `enum ShimmyError`: `Request(reqwest::Error)`,
`ShimmyError { status, message }`, `Unavailable`. -/
inductive ShimmyError where
  | Request (e : ReqError)
  | ShimmyError (status : Nat) (message : String)
  | Unavailable
deriving DecidableEq

/-- Whether a `ShimmyError` is the `Unavailable` variant. -/
def shimmyIsUnavailable : ShimmyError → Bool
  | ShimmyError.Unavailable => true
  | _ => false

/-- Whether a `chat_completions` result is `Err(ShimmyError::Unavailable)`. -/
def resultUnavailable : Except ShimmyError ChatCompletionResponse → Bool
  | Except.error e => shimmyIsUnavailable e
  | Except.ok _ => false

/-- Outcome of one `self.client.post(url).json(req).send().await` together
with the subsequent body read, as the source observes it:
`response status jsonBody textBody` is a response whose status is `status`,
whose body parses as `α` according to `jsonBody` (`.json::<α>()`), and whose
raw text read yields `textBody` (`none` models a failed `.text()` read);
`failure e` is a transport-level send error (connection failure, timeout). -/
inductive SendOutcome (α : Type) where
  | response (status : Nat) (jsonBody : Except ReqError α) (textBody : Option String)
  | failure (e : ReqError)

/-- `reqwest::StatusCode::is_success`: status in `200..=299`. -/
def isSuccessStatus (s : Nat) : Bool :=
  200 ≤ s && s ≤ 299

/-- One iteration of the retry loop body of `ShimmyClient::chat_completions`:
`Sum.inl r` means the loop returns `r` at this attempt (success status, with
`r` the parsed response or the body-parse error mapped through
`ShimmyError::from`); `Sum.inr e` means the attempt failed and `e` is stored
in `last_error` before the loop continues. -/
def attemptStep (o : SendOutcome ChatCompletionResponse) :
    (Except ShimmyError ChatCompletionResponse) ⊕ ShimmyError :=
  match o with
  | SendOutcome.response status jsonBody textBody =>
    if isSuccessStatus status then
      match jsonBody with
      | Except.ok r => Sum.inl (Except.ok r)
      | Except.error e => Sum.inl (Except.error (ShimmyError.Request e))
    else
      Sum.inr (ShimmyError.ShimmyError status (textBody.getD "Unknown error"))
  | SendOutcome.failure e => Sum.inr (ShimmyError.Request e)

/-- Observable trace of one `ShimmyClient::chat_completions` call: its result,
the number of upstream attempts made, the backoff sleeps performed (in ms,
in order), and the request bodies sent upstream (in order). -/
structure RunResult where
  result : Except ShimmyError ChatCompletionResponse
  attemptsMade : Nat
  waits : List Nat
  sent : List ChatCompletionRequest

/-- Bookkeeping for one failed attempt at index `attempt` followed by the rest
of the loop `r`: the attempt posts `req`, sleeps `100 * 2 ^ attempt` ms first
when `attempt > 0`, and the final result is whatever the rest produces. -/
def RunResult.afterRetry (req : ChatCompletionRequest) (attempt : Nat) (r : RunResult) :
    RunResult :=
  { result := r.result
    attemptsMade := r.attemptsMade + 1
    waits := (if 0 < attempt then [100 * 2 ^ attempt] else []) ++ r.waits
    sent := req :: r.sent }

/-- The retry loop `for attempt in 0..=max_retries { .. }` of
`ShimmyClient::chat_completions`, unrolled from iteration `attempt` with
`remaining` iterations left and `last` the current `last_error`.  Falling off
the loop returns `Err(last_error.unwrap_or(ShimmyError::Unavailable))`. -/
def retryLoopAux (send : ChatCompletionRequest → Nat → SendOutcome ChatCompletionResponse)
    (req : ChatCompletionRequest) : Nat → Option ShimmyError → Nat → RunResult
  | _, last, 0 =>
    { result := Except.error (last.getD ShimmyError.Unavailable)
      attemptsMade := 0
      waits := []
      sent := [] }
  | attempt, _, remaining + 1 =>
    match attemptStep (send req attempt) with
    | Sum.inl res =>
      { result := res
        attemptsMade := 1
        waits := if 0 < attempt then [100 * 2 ^ attempt] else []
        sent := [req] }
    | Sum.inr e =>
      RunResult.afterRetry req attempt (retryLoopAux send req (attempt + 1) (some e) remaining)

/-- `ShimmyClient::chat_completions`: the retry loop starting at attempt 0 with
`max_retries + 1` iterations (`0..=max_retries`) and `last_error = None`. -/
def ShimmyClient.chat_completions
    (send : ChatCompletionRequest → Nat → SendOutcome ChatCompletionResponse)
    (max_retries : Nat) (req : ChatCompletionRequest) : RunResult :=
  retryLoopAux send req 0 none (max_retries + 1)

/-- `http::StatusCode::from_u16`: defined exactly on `100..=999`. -/
def statusCodeFromU16 (s : Nat) : Option Nat :=
  if 100 ≤ s && s ≤ 999 then some s else none

/-- The HTTP status chosen by `chat_completions_handler` for a failed proxy
call: upstream status when representable (502 otherwise), 503 for
`Unavailable`, 504 for a timeout transport error, 502 otherwise. -/
def shimmyErrorStatus : ShimmyError → Nat
  | ShimmyError.ShimmyError status _ => (statusCodeFromU16 status).getD 502
  | ShimmyError.Unavailable => 503
  | ShimmyError.Request e => if e.is_timeout then 504 else 502

/-- The message chosen by `chat_completions_handler` for a failed proxy call. -/
def shimmyErrorMessage : ShimmyError → String
  | ShimmyError.ShimmyError _ message => message
  | ShimmyError.Unavailable => "Shimmy backend is unavailable"
  | ShimmyError.Request e =>
    if e.is_timeout then "Request to shimmy timed out"
    else "Shimmy request failed: " ++ e.msg

/-- Observable behaviour of one `chat_completions_handler` invocation: either
the proxied response or an HTTP status paired with a typed `ErrorResponse`,
plus the list of request bodies that were sent upstream. -/
structure HandlerOutput where
  response : Except (Nat × ErrorResponse) ChatCompletionResponse
  sent : List ChatCompletionRequest

/-- `chat_completions_handler`: rejects an empty `messages` array with
HTTP 400 before any upstream call, otherwise proxies the request through
`ShimmyClient::chat_completions` and maps a failure through
`shimmyErrorStatus`/`shimmyErrorMessage` into a typed `ErrorResponse`. -/
def chat_completions_handler
    (send : ChatCompletionRequest → Nat → SendOutcome ChatCompletionResponse)
    (max_retries : Nat) (req : ChatCompletionRequest) : HandlerOutput :=
  if req.messages.isEmpty then
    { response := Except.error (400,
        { error :=
          { message := "Messages array cannot be empty"
            error_type := "invalid_request_error"
            code := some "invalid_messages" } })
      sent := [] }
  else
    match (ShimmyClient.chat_completions send max_retries req).result with
    | Except.ok resp =>
      { response := Except.ok resp
        sent := (ShimmyClient.chat_completions send max_retries req).sent }
    | Except.error e =>
      { response := Except.error (shimmyErrorStatus e,
          { error :=
            { message := shimmyErrorMessage e
              error_type := "backend_error"
              code := some "shimmy_error" } })
        sent := (ShimmyClient.chat_completions send max_retries req).sent }

/-- Result of one `ShimmyClient::models` call: its result and the number of
upstream GET requests performed. -/
structure ModelsRun where
  result : Except ShimmyError ModelsResponse
  requestsMade : Nat

/-- `ShimmyClient::models`: a single GET with no retry loop; the stored
`max_retries` is not consulted.  A non-success status yields
`ShimmyError::ShimmyError { status, message }` with the body text (or
"Unknown error" when the text read fails); a send or body-parse failure
yields `ShimmyError::Request`. -/
def ShimmyClient.models (send : SendOutcome ModelsResponse) (max_retries : Nat) : ModelsRun :=
  { result :=
      match send with
      | SendOutcome.response status jsonBody textBody =>
        if isSuccessStatus status then
          match jsonBody with
          | Except.ok m => Except.ok m
          | Except.error e => Except.error (ShimmyError.Request e)
        else
          Except.error (ShimmyError.ShimmyError status (textBody.getD "Unknown error"))
      | SendOutcome.failure e => Except.error (ShimmyError.Request e)
    requestsMade := 1 }

/-- Outcome of the bare GET performed by `ShimmyClient::health` (the body is
never read). -/
inductive GetOutcome where
  | response (status : Nat)
  | failure (e : ReqError)
deriving DecidableEq

/-- `ShimmyClient::health`: `true` exactly when the GET completed with a
success status; any transport failure gives `false`.  Total — it returns a
`Bool`, never an error. -/
def ShimmyClient.health (send : GetOutcome) : Bool :=
  match send with
  | GetOutcome.response status => isSuccessStatus status
  | GetOutcome.failure _ => false

/-- The `/health` handler `health_check`: HTTP 200 with status "healthy" when
the upstream is healthy, HTTP 503 with status "degraded" otherwise. -/
def health_check (send : GetOutcome) (shimmy_url : String) : Nat × HealthResponse :=
  if ShimmyClient.health send then
    (200, { status := "healthy", shimmy_url := shimmy_url, shimmy_healthy := true })
  else
    (503, { status := "degraded", shimmy_url := shimmy_url, shimmy_healthy := false })

/-- Token id into a fixed vocabulary (spec §3). -/
abbrev TokenId := Nat

/-- Modelled from the spec: the engine side `GenerationRequest` (spec §3 and
§6) of the token-generation core, which is not part of this repository's
source tree (the source here is only the reverse proxy).  It carries the
encoded prompt, `max_new_tokens` (the spec calls its wire form `max_length`),
and `min_length` with default 20, which the spec states is accepted but
unused by the engine. -/
structure GenerationRequest where
  prompt : List TokenId
  max_new_tokens : Nat
  min_length : Nat := 20

/-- Modelled from the spec: the Generation Engine decode loop (spec §4.4),
not present in this repository's source tree.  `next` abstracts one Model
Backend forward pass routed through the Logits Processor (context ↦ sampled
token); starting from the already-emitted output `out` with `fuel` iterations
of budget left, each iteration samples `next (prompt ++ out)`; drawing the
EOS id stops immediately without appending it, otherwise the token is
appended and the loop continues. -/
def generateLoop (next : List TokenId → TokenId) (eos : TokenId) (prompt : List TokenId) :
    Nat → List TokenId → List TokenId
  | 0, out => out
  | fuel + 1, out =>
    if next (prompt ++ out) = eos then out
    else generateLoop next eos prompt fuel (out ++ [next (prompt ++ out)])

/-- Modelled from the spec: one generation call (spec §4.4) — run the decode
loop with budget `max_new_tokens` and an initially empty output.  Note that
`req.min_length` is never consulted. -/
def generate (next : List TokenId → TokenId) (eos : TokenId) (req : GenerationRequest) :
    List TokenId :=
  generateLoop next eos req.prompt req.max_new_tokens []

/-- Concrete user message used by the witnesses. -/
def demoMsg : ChatMessage :=
  { role := "user", content := "Hello!" }

/-- Concrete upstream response used by the witnesses. -/
def demoResp : ChatCompletionResponse :=
  { id := "chatcmpl-test123"
    object := "chat.completion"
    created := 1699000000
    model := "mistral-7b-instruct"
    choices := [{ index := 0
                  message := { role := "assistant", content := "Hi." }
                  finish_reason := "stop" }]
    usage := { prompt_tokens := 5, completion_tokens := 10, total_tokens := 15 } }

/-- Concrete well-formed request used by the witnesses. -/
def demoReq : ChatCompletionRequest :=
  { model := "mistral-7b-instruct"
    messages := [demoMsg]
    max_tokens := none
    temperature := none
    top_p := none
    stream := none }

/-- Concrete request with an empty `messages` array. -/
def emptyReq : ChatCompletionRequest :=
  { model := "mistral-7b-instruct"
    messages := []
    max_tokens := none
    temperature := none
    top_p := none
    stream := none }

/-- Concrete request asking for 150 output tokens. -/
def req150 : ChatCompletionRequest :=
  { model := "mistral-7b-instruct"
    messages := [demoMsg]
    max_tokens := some 150
    temperature := none
    top_p := none
    stream := none }

/-- Oracle: every attempt yields a 200 response whose body parses. -/
def sendOK : ChatCompletionRequest → Nat → SendOutcome ChatCompletionResponse :=
  fun _ _ => SendOutcome.response 200 (Except.ok demoResp) none

/-- Oracle: every attempt fails at transport level (connection refused). -/
def sendRefused : ChatCompletionRequest → Nat → SendOutcome ChatCompletionResponse :=
  fun _ _ => SendOutcome.failure { is_timeout := false, msg := "connection refused" }

/-- Oracle: every attempt times out. -/
def sendTimedOut : ChatCompletionRequest → Nat → SendOutcome ChatCompletionResponse :=
  fun _ _ => SendOutcome.failure { is_timeout := true, msg := "operation timed out" }

/-- Concrete models GET outcome: a 500 with body "Internal Server Error". -/
def send500 : SendOutcome ModelsResponse :=
  SendOutcome.response 500 (Except.error { is_timeout := false, msg := "decode" })
    (some "Internal Server Error")

/-- The loop body never returns `Err(Unavailable)` on an early return. -/
theorem attemptStep_inl_ne (o : SendOutcome ChatCompletionResponse)
    (res : Except ShimmyError ChatCompletionResponse)
    (h : attemptStep o = Sum.inl res) : res ≠ Except.error ShimmyError.Unavailable := by
  cases o with
  | response status jsonBody textBody =>
    simp only [attemptStep] at h
    by_cases hss : isSuccessStatus status = true
    · rw [if_pos hss] at h
      cases jsonBody with
      | ok r =>
        injection h with h
        subst h
        intro hc
        exact Except.noConfusion hc
      | error e =>
        injection h with h
        subst h
        intro hc
        injection hc with hc
        exact ShimmyError.noConfusion hc
    · rw [if_neg hss] at h
      exact Sum.noConfusion h
  | failure e =>
    simp only [attemptStep] at h
    exact Sum.noConfusion h

/-- The loop body never records `Unavailable` in `last_error`. -/
theorem attemptStep_inr_ne (o : SendOutcome ChatCompletionResponse)
    (e : ShimmyError) (h : attemptStep o = Sum.inr e) : e ≠ ShimmyError.Unavailable := by
  cases o with
  | response status jsonBody textBody =>
    simp only [attemptStep] at h
    by_cases hss : isSuccessStatus status = true
    · rw [if_pos hss] at h
      cases jsonBody with
      | ok r => exact Sum.noConfusion h
      | error e' => exact Sum.noConfusion h
    · rw [if_neg hss] at h
      injection h with h
      subst h
      intro hc
      exact ShimmyError.noConfusion hc
  | failure e' =>
    simp only [attemptStep] at h
    injection h with h
    subst h
    intro hc
    exact ShimmyError.noConfusion hc

/-- The loop makes at most as many attempts as it has iterations left. -/
theorem retryLoopAux_attempts_le
    (send : ChatCompletionRequest → Nat → SendOutcome ChatCompletionResponse)
    (req : ChatCompletionRequest) :
    ∀ remaining attempt last,
      (retryLoopAux send req attempt last remaining).attemptsMade ≤ remaining := by
  intro remaining
  induction remaining with
  | zero =>
    intro attempt last
    simp [retryLoopAux]
  | succ n ih =>
    intro attempt last
    simp only [retryLoopAux]
    cases h : attemptStep (send req attempt) with
    | inl res => simp
    | inr e =>
      simp only [RunResult.afterRetry]
      exact Nat.succ_le_succ (ih (attempt + 1) (some e))

/-- With at least one iteration left, the loop makes at least one attempt. -/
theorem retryLoopAux_attempts_pos
    (send : ChatCompletionRequest → Nat → SendOutcome ChatCompletionResponse)
    (req : ChatCompletionRequest) (remaining attempt : Nat) (last : Option ShimmyError) :
    1 ≤ (retryLoopAux send req attempt last (remaining + 1)).attemptsMade := by
  simp only [retryLoopAux]
  cases h : attemptStep (send req attempt) with
  | inl res => simp
  | inr e =>
    simp only [RunResult.afterRetry]
    exact Nat.succ_le_succ (Nat.zero_le _)

/-- Starting from a positive attempt index, the sleeps performed are exactly
`100 * 2 ^ i` for the attempt indices `i` actually executed. -/
theorem retryLoopAux_waits
    (send : ChatCompletionRequest → Nat → SendOutcome ChatCompletionResponse)
    (req : ChatCompletionRequest) :
    ∀ remaining attempt last, 1 ≤ attempt →
      (retryLoopAux send req attempt last remaining).waits =
        (List.range' attempt (retryLoopAux send req attempt last remaining).attemptsMade).map
          (fun i => 100 * 2 ^ i) := by
  intro remaining
  induction remaining with
  | zero =>
    intro attempt last _
    simp [retryLoopAux]
  | succ n ih =>
    intro attempt last ha
    simp only [retryLoopAux]
    cases h : attemptStep (send req attempt) with
    | inl res =>
      have h0 : 0 < attempt := ha
      simp [h0, List.range']
    | inr e =>
      simp only [RunResult.afterRetry, if_pos (Nat.lt_of_lt_of_le Nat.zero_lt_one ha)]
      rw [ih (attempt + 1) (some e) (Nat.le_succ_of_le ha)]
      simp [List.range']

/-- Every attempt posts the same request body `req`. -/
theorem retryLoopAux_sent
    (send : ChatCompletionRequest → Nat → SendOutcome ChatCompletionResponse)
    (req : ChatCompletionRequest) :
    ∀ remaining attempt last,
      (retryLoopAux send req attempt last remaining).sent =
        List.replicate (retryLoopAux send req attempt last remaining).attemptsMade req := by
  intro remaining
  induction remaining with
  | zero =>
    intro attempt last
    simp [retryLoopAux]
  | succ n ih =>
    intro attempt last
    simp only [retryLoopAux]
    cases h : attemptStep (send req attempt) with
    | inl res => simp [List.replicate]
    | inr e =>
      simp only [RunResult.afterRetry]
      rw [ih (attempt + 1) (some e)]
      simp [List.replicate]

/-- If every attempt strictly before `k` fails and attempt `k` returns, the
loop result is attempt `k`'s value and exactly `k + 1 - attempt` attempts are
made from start index `attempt`. -/
theorem retryLoopAux_first_success
    (send : ChatCompletionRequest → Nat → SendOutcome ChatCompletionResponse)
    (req : ChatCompletionRequest) :
    ∀ remaining attempt last k res,
      attempt ≤ k → k < attempt + remaining →
      (∀ j, attempt ≤ j → j < k → ∃ e, attemptStep (send req j) = Sum.inr e) →
      attemptStep (send req k) = Sum.inl res →
      (retryLoopAux send req attempt last remaining).result = res ∧
        (retryLoopAux send req attempt last remaining).attemptsMade = k + 1 - attempt := by
  intro remaining
  induction remaining with
  | zero =>
    intro attempt last k res h1 h2 _ _
    omega
  | succ n ih =>
    intro attempt last k res h1 h2 h3 h4
    simp only [retryLoopAux]
    cases hs : attemptStep (send req attempt) with
    | inl r0 =>
      have hk : attempt = k := by
        by_contra hne
        obtain ⟨e, he⟩ := h3 attempt le_rfl (lt_of_le_of_ne h1 hne)
        rw [hs] at he
        exact Sum.noConfusion he
      subst hk
      rw [hs] at h4
      injection h4 with h4
      subst h4
      refine ⟨rfl, ?_⟩
      show 1 = attempt + 1 - attempt
      omega
    | inr e =>
      have hk : attempt < k := by
        rcases Nat.eq_or_lt_of_le h1 with h | h
        · subst h
          rw [hs] at h4
          exact Sum.noConfusion h4
        · exact h
      have hrec := ih (attempt + 1) (some e) k res hk (by omega)
        (fun j hj hjk => h3 j (by omega) hjk) h4
      refine ⟨hrec.1, ?_⟩
      simp only [RunResult.afterRetry]
      omega

/-- If every attempt the loop can make fails, the loop falls through and
returns the error recorded on the last attempt. -/
theorem retryLoopAux_all_fail
    (send : ChatCompletionRequest → Nat → SendOutcome ChatCompletionResponse)
    (req : ChatCompletionRequest) (errs : Nat → ShimmyError) :
    ∀ remaining attempt last, 1 ≤ remaining →
      (∀ k, attempt ≤ k → k < attempt + remaining →
        attemptStep (send req k) = Sum.inr (errs k)) →
      (retryLoopAux send req attempt last remaining).result =
        Except.error (errs (attempt + remaining - 1)) := by
  intro remaining
  induction remaining with
  | zero =>
    intro attempt last h1 _
    omega
  | succ n ih =>
    intro attempt last _ h
    have hs := h attempt le_rfl (by omega)
    simp only [retryLoopAux]
    rw [hs]
    cases n with
    | zero =>
      simp [RunResult.afterRetry, retryLoopAux]
    | succ m =>
      have hrec := ih (attempt + 1) (some (errs attempt)) (by omega)
        (fun k hk1 hk2 => h k (by omega) (by omega))
      simp only [RunResult.afterRetry]
      have harith : attempt + 1 + (m + 1) - 1 = attempt + (m + 1 + 1) - 1 := by omega
      rw [hrec, harith]

/-- With at least one iteration, the loop never returns `Unavailable`. -/
theorem retryLoopAux_ne_unavailable
    (send : ChatCompletionRequest → Nat → SendOutcome ChatCompletionResponse)
    (req : ChatCompletionRequest) :
    ∀ remaining attempt last, 1 ≤ remaining →
      (retryLoopAux send req attempt last remaining).result ≠
        Except.error ShimmyError.Unavailable := by
  intro remaining
  induction remaining with
  | zero =>
    intro attempt last h1
    omega
  | succ n ih =>
    intro attempt last _
    simp only [retryLoopAux]
    cases hs : attemptStep (send req attempt) with
    | inl res => exact attemptStep_inl_ne _ _ hs
    | inr e =>
      cases n with
      | zero =>
        intro hc
        have hc2 : (Except.error e : Except ShimmyError ChatCompletionResponse) =
            Except.error ShimmyError.Unavailable := hc
        injection hc2 with hc3
        exact attemptStep_inr_ne _ _ hs hc3
      | succ m =>
        exact ih (attempt + 1) (some e) (Nat.succ_le_succ (Nat.zero_le m))

/-- The decode loop adds at most `fuel` tokens to the current output. -/
theorem generateLoop_length (next : List TokenId → TokenId) (eos : TokenId)
    (prompt : List TokenId) :
    ∀ fuel out, (generateLoop next eos prompt fuel out).length ≤ out.length + fuel := by
  intro fuel
  induction fuel with
  | zero =>
    intro out
    simp [generateLoop]
  | succ n ih =>
    intro out
    simp only [generateLoop]
    by_cases h : next (prompt ++ out) = eos
    · rw [if_pos h]
      omega
    · rw [if_neg h]
      have hrec := ih (out ++ [next (prompt ++ out)])
      simp only [List.length_append, List.length_singleton] at hrec
      omega

/-- The decode loop never appends the EOS id to the output. -/
theorem generateLoop_not_mem (next : List TokenId → TokenId) (eos : TokenId)
    (prompt : List TokenId) :
    ∀ fuel out, eos ∉ out → eos ∉ generateLoop next eos prompt fuel out := by
  intro fuel
  induction fuel with
  | zero =>
    intro out h
    simpa [generateLoop] using h
  | succ n ih =>
    intro out h
    simp only [generateLoop]
    by_cases hq : next (prompt ++ out) = eos
    · rw [if_pos hq]
      exact h
    · rw [if_neg hq]
      apply ih
      intro hc
      rcases List.mem_append.mp hc with h1 | h2
      · exact h h1
      · exact hq (List.mem_singleton.mp h2).symm

/-- The decode loop ends either by drawing EOS at its final state or by
exhausting its budget. -/
theorem generateLoop_stop (next : List TokenId → TokenId) (eos : TokenId)
    (prompt : List TokenId) :
    ∀ fuel out,
      next (prompt ++ generateLoop next eos prompt fuel out) = eos ∨
        (generateLoop next eos prompt fuel out).length = out.length + fuel := by
  intro fuel
  induction fuel with
  | zero =>
    intro out
    right
    simp [generateLoop]
  | succ n ih =>
    intro out
    simp only [generateLoop]
    by_cases hq : next (prompt ++ out) = eos
    · rw [if_pos hq]
      exact Or.inl hq
    · rw [if_neg hq]
      rcases ih (out ++ [next (prompt ++ out)]) with h | h
      · exact Or.inl h
      · right
        rw [h]
        simp only [List.length_append, List.length_singleton]
        omega

/-- Every upstream attempt of one `chat_completions` call posts the caller's
request verbatim. -/
theorem chat_completions_sent
    (send : ChatCompletionRequest → Nat → SendOutcome ChatCompletionResponse)
    (max_retries : Nat) (req : ChatCompletionRequest) :
    (ShimmyClient.chat_completions send max_retries req).sent =
      List.replicate (ShimmyClient.chat_completions send max_retries req).sent.length req := by
  have hs := retryLoopAux_sent send req (max_retries + 1) 0 none
  show (retryLoopAux send req 0 none (max_retries + 1)).sent =
      List.replicate (retryLoopAux send req 0 none (max_retries + 1)).sent.length req
  rw [hs]
  simp

/-- Claim C1: `ShimmyClient::chat_completions` makes at least one and at most
`max_retries + 1` upstream attempts; the backoff sleeps performed are exactly
`100 * 2 ^ attempt` ms before each retry attempt `attempt = 1, 2, ...`
actually executed (and none before the initial attempt 0); and the first
attempt whose upstream response has a success status ends the loop
immediately — its value (the parsed response; when the success body fails to
parse, the resulting `ShimmyError::Request`) is returned with no further
attempts. -/
theorem claim_C1
    (send : ChatCompletionRequest → Nat → SendOutcome ChatCompletionResponse)
    (max_retries : Nat) (req : ChatCompletionRequest) :
    (1 ≤ (ShimmyClient.chat_completions send max_retries req).attemptsMade ∧
      (ShimmyClient.chat_completions send max_retries req).attemptsMade ≤ max_retries + 1) ∧
    (ShimmyClient.chat_completions send max_retries req).waits =
      (List.range' 1 ((ShimmyClient.chat_completions send max_retries req).attemptsMade - 1)).map
        (fun i => 100 * 2 ^ i) ∧
    (∀ k res, k ≤ max_retries →
      (∀ j, j < k → ∃ e, attemptStep (send req j) = Sum.inr e) →
      attemptStep (send req k) = Sum.inl res →
      (ShimmyClient.chat_completions send max_retries req).result = res ∧
        (ShimmyClient.chat_completions send max_retries req).attemptsMade = k + 1) := by
  refine ⟨⟨?_, ?_⟩, ?_, ?_⟩
  · exact retryLoopAux_attempts_pos send req max_retries 0 none
  · exact retryLoopAux_attempts_le send req (max_retries + 1) 0 none
  · show (retryLoopAux send req 0 none (max_retries + 1)).waits =
      (List.range' 1 ((retryLoopAux send req 0 none (max_retries + 1)).attemptsMade - 1)).map
        (fun i => 100 * 2 ^ i)
    simp only [retryLoopAux]
    cases hs : attemptStep (send req 0) with
    | inl res => simp [List.range']
    | inr e =>
      simp only [RunResult.afterRetry]
      rw [retryLoopAux_waits send req max_retries 1 (some e) le_rfl]
      simp
  · intro k res hk hfail hsucc
    have hfs := retryLoopAux_first_success send req (max_retries + 1) 0 none k res
      (Nat.zero_le k) (by omega) (fun j _ hjk => hfail j hjk) hsucc
    have h2 : (ShimmyClient.chat_completions send max_retries req).attemptsMade =
        k + 1 - 0 := hfs.2
    exact ⟨hfs.1, by omega⟩

/-- Witness for C1: with an oracle whose first attempt returns HTTP 200 with
a parsable body, the call returns the parsed response after exactly one
attempt. -/
theorem claim_C1_witness :
    (ShimmyClient.chat_completions sendOK 3 demoReq).result = Except.ok demoResp ∧
      (ShimmyClient.chat_completions sendOK 3 demoReq).attemptsMade = 1 :=
  (claim_C1 sendOK 3 demoReq).2.2 0 (Except.ok demoResp) (Nat.zero_le 3)
    (fun j hj => absurd hj (Nat.not_lt_zero j)) rfl

/-- Claim C2: when every attempt fails, each recorded error follows the
taxonomy — a non-success upstream status `s` is recorded as
`ShimmyError::ShimmyError` carrying `s` and the response body text (or
"Unknown error" when the text read fails), and a transport-level send failure
(including timeout) is recorded as `ShimmyError::Request` — and the error
returned after exhaustion is the one recorded on the last attempt. -/
theorem claim_C2
    (send : ChatCompletionRequest → Nat → SendOutcome ChatCompletionResponse)
    (max_retries : Nat) (req : ChatCompletionRequest)
    (errs : Nat → ShimmyError)
    (hfail : ∀ k, k ≤ max_retries → attemptStep (send req k) = Sum.inr (errs k)) :
    (ShimmyClient.chat_completions send max_retries req).result =
      Except.error (errs max_retries) ∧
    ∀ k, k ≤ max_retries →
      match send req k with
      | SendOutcome.response s _ t =>
        isSuccessStatus s = false ∧
          errs k = ShimmyError.ShimmyError s (t.getD "Unknown error")
      | SendOutcome.failure e => errs k = ShimmyError.Request e := by
  constructor
  · have hall := retryLoopAux_all_fail send req errs (max_retries + 1) 0 none (by omega)
      (fun k _ hk2 => hfail k (by omega))
    simpa [ShimmyClient.chat_completions] using hall
  · intro k hk
    have h := hfail k hk
    cases ho : send req k with
    | response s jsonBody t =>
      rw [ho] at h
      simp only [attemptStep] at h
      by_cases hss : isSuccessStatus s = true
      · rw [if_pos hss] at h
        cases jsonBody with
        | ok r => exact Sum.noConfusion h
        | error e => exact Sum.noConfusion h
      · rw [if_neg hss] at h
        injection h with h
        exact ⟨by simpa using hss, h.symm⟩
    | failure e =>
      rw [ho] at h
      simp only [attemptStep] at h
      injection h with h
      exact h.symm

/-- Witness for C2: with every attempt refused at transport level and
`max_retries = 1`, the call returns the `Request` error of the last attempt. -/
theorem claim_C2_witness :
    (ShimmyClient.chat_completions sendRefused 1 demoReq).result =
      Except.error (ShimmyError.Request { is_timeout := false, msg := "connection refused" }) :=
  (claim_C2 sendRefused 1 demoReq
    (fun _ => ShimmyError.Request { is_timeout := false, msg := "connection refused" })
    (fun _ _ => rfl)).1

/-- Claim C3: for every failed proxied call, `chat_completions_handler`
returns a typed `ErrorResponse` (it is a total function into that type), with
HTTP status determined by the error variant: `ShimmyError::ShimmyError`
carrying `status` maps to that same status when it is a representable HTTP
status (100..=999) and to 502 otherwise, `Unavailable` maps to 503, a timeout
`Request` error maps to 504, and any other `Request` error maps to 502. -/
theorem claim_C3
    (send : ChatCompletionRequest → Nat → SendOutcome ChatCompletionResponse)
    (max_retries : Nat) (req : ChatCompletionRequest) (e : ShimmyError)
    (hmsg : req.messages ≠ [])
    (hres : (ShimmyClient.chat_completions send max_retries req).result = Except.error e) :
    (chat_completions_handler send max_retries req).response =
      Except.error (shimmyErrorStatus e,
        { error := { message := shimmyErrorMessage e
                     error_type := "backend_error"
                     code := some "shimmy_error" } }) ∧
    (∀ s m, shimmyErrorStatus (ShimmyError.ShimmyError s m) =
      if 100 ≤ s && s ≤ 999 then s else 502) ∧
    shimmyErrorStatus ShimmyError.Unavailable = 503 ∧
    (∀ re, shimmyErrorStatus (ShimmyError.Request re) =
      if re.is_timeout then 504 else 502) := by
  refine ⟨?_, ?_, rfl, fun re => rfl⟩
  · simp only [chat_completions_handler]
    rw [if_neg (by simpa using hmsg)]
    rw [hres]
  · intro s m
    simp only [shimmyErrorStatus, statusCodeFromU16]
    by_cases hc : (100 ≤ s && s ≤ 999) = true
    · simp [hc]
    · simp [hc]

/-- Witness for C3: a request whose single attempt times out is mapped to
HTTP 504 with a typed error body. -/
theorem claim_C3_witness :
    (chat_completions_handler sendTimedOut 0 demoReq).response =
      Except.error (504,
        { error := { message := "Request to shimmy timed out"
                     error_type := "backend_error"
                     code := some "shimmy_error" } }) :=
  (claim_C3 sendTimedOut 0 demoReq
    (ShimmyError.Request { is_timeout := true, msg := "operation timed out" })
    (by decide) rfl).1

/-- Counterexample to claim C4 as stated: the handler performs no clamping or
defaulting — a request asking for `max_tokens = 150` reaches the backend with
150 (which exceeds 100), and an omitted `max_tokens` reaches the backend
absent rather than defaulted to 100. -/
theorem claim_C4_counterexample :
    (chat_completions_handler sendOK 3 req150).sent = [req150] ∧
      req150.max_tokens = some 150 ∧ 100 < 150 ∧
      demoReq.max_tokens = none :=
  ⟨rfl, rfl, by omega, rfl⟩

/-- Claim C4, amended: `chat_completions_handler` applies no ceiling and no
default to the caller's max-tokens value — every upstream attempt sends the
caller's request verbatim, so the `max_tokens` reaching the backend is
exactly the caller's field (absent when omitted, above 100 when requested
above 100). -/
theorem claim_C4
    (send : ChatCompletionRequest → Nat → SendOutcome ChatCompletionResponse)
    (max_retries : Nat) (req : ChatCompletionRequest) :
    (chat_completions_handler send max_retries req).sent =
      List.replicate (chat_completions_handler send max_retries req).sent.length req := by
  simp only [chat_completions_handler]
  by_cases hm : req.messages.isEmpty = true
  · rw [if_pos hm]
    rfl
  · rw [if_neg hm]
    cases hr : (ShimmyClient.chat_completions send max_retries req).result with
    | ok r => exact chat_completions_sent send max_retries req
    | error e => exact chat_completions_sent send max_retries req

/-- Claim C5: emptiness validation happens in the HTTP layer — for every
request whose `messages` array is empty, the handler returns HTTP 400 with a
typed body whose `error_type` is "invalid_request_error" and whose code is
"invalid_messages", and makes no upstream request. -/
theorem claim_C5
    (send : ChatCompletionRequest → Nat → SendOutcome ChatCompletionResponse)
    (max_retries : Nat) (req : ChatCompletionRequest)
    (hm : req.messages = []) :
    (chat_completions_handler send max_retries req).response =
      Except.error (400,
        { error := { message := "Messages array cannot be empty"
                     error_type := "invalid_request_error"
                     code := some "invalid_messages" } }) ∧
    (chat_completions_handler send max_retries req).sent = [] := by
  have hempty : req.messages.isEmpty = true := by rw [hm]; rfl
  constructor
  · simp only [chat_completions_handler]
    rw [if_pos hempty]
  · simp only [chat_completions_handler]
    rw [if_pos hempty]

/-- Witness for C5: the concrete empty-messages request is rejected with 400
and nothing is sent upstream. -/
theorem claim_C5_witness :
    (chat_completions_handler sendOK 3 emptyReq).response =
      Except.error (400,
        { error := { message := "Messages array cannot be empty"
                     error_type := "invalid_request_error"
                     code := some "invalid_messages" } }) ∧
    (chat_completions_handler sendOK 3 emptyReq).sent = [] :=
  claim_C5 sendOK 3 emptyReq rfl

/-- Claim C6 (engine modelled from the spec, which describes a decode loop
absent from this repository's source): the loop emits at most
`max_new_tokens` tokens, terminates upon drawing the configured EOS id
without appending it, and stops only by an EOS draw at its final state or by
budget exhaustion. -/
theorem claim_C6 (next : List TokenId → TokenId) (eos : TokenId) (req : GenerationRequest) :
    (generate next eos req).length ≤ req.max_new_tokens ∧
    eos ∉ generate next eos req ∧
    (next (req.prompt ++ generate next eos req) = eos ∨
      (generate next eos req).length = req.max_new_tokens) := by
  refine ⟨?_, ?_, ?_⟩
  · have h := generateLoop_length next eos req.prompt req.max_new_tokens []
    simpa [generate] using h
  · exact generateLoop_not_mem next eos req.prompt req.max_new_tokens []
      (List.not_mem_nil eos)
  · have h := generateLoop_stop next eos req.prompt req.max_new_tokens []
    simpa [generate] using h

/-- Claim C7 (engine modelled from the spec, which describes a request shape
absent from this repository's source): `min_length` is accepted with default
20 but inert — two generation requests differing only in `min_length`
generate identical outputs. -/
theorem claim_C7 (next : List TokenId → TokenId) (eos : TokenId)
    (prompt : List TokenId) (max_new m1 m2 : Nat) :
    generate next eos { prompt := prompt, max_new_tokens := max_new, min_length := m1 } =
      generate next eos { prompt := prompt, max_new_tokens := max_new, min_length := m2 } ∧
    ({ prompt := prompt, max_new_tokens := max_new } : GenerationRequest).min_length = 20 :=
  ⟨rfl, rfl⟩

/-- Claim C8: `ShimmyClient::chat_completions` never returns
`ShimmyError::Unavailable` — the range `0..=max_retries` is non-empty, every
non-returning attempt records `Some` error in `last_error`, so the
`unwrap_or(ShimmyError::Unavailable)` fallback is unreachable. -/
theorem claim_C8
    (send : ChatCompletionRequest → Nat → SendOutcome ChatCompletionResponse)
    (max_retries : Nat) (req : ChatCompletionRequest) :
    resultUnavailable (ShimmyClient.chat_completions send max_retries req).result = false := by
  have hne := retryLoopAux_ne_unavailable send req (max_retries + 1) 0 none
    (Nat.succ_le_succ (Nat.zero_le max_retries))
  cases hr : (ShimmyClient.chat_completions send max_retries req).result with
  | ok r => rfl
  | error e =>
    cases e with
    | Request e' => rfl
    | ShimmyError s m => rfl
    | Unavailable => exact absurd hr hne

/-- Claim C9: `ShimmyClient::models` performs exactly one upstream GET
request regardless of the configured `max_retries` (no retry, no backoff); a
non-success upstream status yields `ShimmyError::ShimmyError` carrying that
status and the response body, and a transport failure yields
`ShimmyError::Request`. -/
theorem claim_C9 (send : SendOutcome ModelsResponse) (max_retries : Nat) :
    (ShimmyClient.models send max_retries).requestsMade = 1 ∧
    ShimmyClient.models send max_retries = ShimmyClient.models send 0 ∧
    (∀ status jsonBody textBody,
      send = SendOutcome.response status jsonBody textBody →
      isSuccessStatus status = false →
      (ShimmyClient.models send max_retries).result =
        Except.error (ShimmyError.ShimmyError status (textBody.getD "Unknown error"))) ∧
    (∀ e, send = SendOutcome.failure e →
      (ShimmyClient.models send max_retries).result =
        Except.error (ShimmyError.Request e)) := by
  refine ⟨rfl, rfl, ?_, ?_⟩
  · intro status jsonBody textBody hsend hss
    rw [hsend]
    simp [ShimmyClient.models, hss]
  · intro e hsend
    rw [hsend]
    rfl

/-- Witness for C9: a 500 response from the models endpoint maps to
`ShimmyError::ShimmyError` carrying 500 and the body text. -/
theorem claim_C9_witness :
    (ShimmyClient.models send500 7).result =
      Except.error (ShimmyError.ShimmyError 500 "Internal Server Error") :=
  (claim_C9 send500 7).2.2.1 500
    (Except.error { is_timeout := false, msg := "decode" })
    (some "Internal Server Error") rfl rfl

/-- Claim C10: `ShimmyClient::health` is total (it returns a `Bool`, never an
error), yielding `true` exactly when the upstream GET completed with a
success status and `false` on any non-success status or transport failure;
the `/health` handler returns 200 with status "healthy" exactly when the
upstream is healthy, and 503 with status "degraded" otherwise. -/
theorem claim_C10 (send : GetOutcome) (shimmy_url : String) :
    (ShimmyClient.health send = true ↔
      ∃ s, send = GetOutcome.response s ∧ isSuccessStatus s = true) ∧
    ((health_check send shimmy_url).1 = 200 ∧
        (health_check send shimmy_url).2.status = "healthy" ↔
      ShimmyClient.health send = true) ∧
    ((health_check send shimmy_url).1 = 503 ∧
        (health_check send shimmy_url).2.status = "degraded" ↔
      ShimmyClient.health send = false) ∧
    (health_check send shimmy_url).2.shimmy_healthy = ShimmyClient.health send := by
  refine ⟨?_, ?_, ?_, ?_⟩
  · cases send with
    | response s => simp [ShimmyClient.health]
    | failure e => simp [ShimmyClient.health]
  · cases hh : ShimmyClient.health send with
    | false => simp [health_check, hh]
    | true => simp [health_check, hh]
  · cases hh : ShimmyClient.health send with
    | false => simp [health_check, hh]
    | true => simp [health_check, hh]
  · cases hh : ShimmyClient.health send with
    | false => simp [health_check, hh]
    | true => simp [health_check, hh]

end Seminstruct
